import Mathlib

/-!
# Verification of the TandemQUAST pipeline controller (`tandemquast.py`)

Shallow embedding of the pipeline controller in `tandemquast.py`.  The
script is an orchestrator: it validates the read-source selection, adapts
analysis parameters to the maximum assembly length (`set_params`), creates
the output directories, builds assembly objects, and then either runs only
the polishing stage (`--only-polish`) or invokes the external aligner
followed by the analysis stages (coverage, breakpoints, optional k-mer
analysis, pairwise comparison, discordance, optional monomer analysis).

The embedding turns the script into a pure function from the command-line
inputs plus an environment (results of the helper functions that live in
`scripts/` and of the OS calls) to a run result: the ordered trace of
observable actions, the process exit code, and the final contents of the
mutable `config` module fields that `tandemquast.py` itself writes.
-/

set_option autoImplicit false

namespace TandemQuast

/-- The Python replace call at line 79 that deletes every double-quote
character from the label string. -/
def removeQuotes (s : List Char) : List Char :=
  s.filter (fun c => c != '"')

/-- The Python split-on-comma at line 79: splits at every comma, keeping
empty pieces, and yields one empty piece on the empty string. -/
def splitOnComma : List Char → List (List Char)
  | [] => [[]]
  | c :: rest =>
    let r := splitOnComma rest
    if c = ',' then [] :: r
    else
      match r with
      | [] => [[c]]
      | g :: gs => (c :: g) :: gs

/-- Does `p` occur at the start of `s`? (helper for substring search). -/
def leadingMatch : List Char → List Char → Bool
  | [], _ => true
  | _ :: _, [] => false
  | p :: ps, c :: cs => p = c && leadingMatch ps cs

/-- Does `p` occur somewhere in `s`? (helper for Python `in` on strings). -/
def containsSub (p : List Char) : List Char → Bool
  | [] => leadingMatch p []
  | c :: cs => leadingMatch p (c :: cs) || containsSub p cs

/-- Python `pat in s` for strings (substring containment). -/
def strContains (s pat : String) : Bool :=
  containsSub pat.data s.data

/-- The fields of the `config` module that `tandemquast.py` writes.
`platform` and `platfrom` are distinct attributes: line 57 assigns
`config.platform = "nano"` while line 60 assigns `config.platfrom =
"pacbio"` (the misspelled attribute).  `none` means the attribute was not
assigned by `tandemquast.py`. -/
structure Config where
  KMER_WINDOW_SIZE : Nat := 0
  BP_WINDOW_SIZE : Nat := 0
  MOVING_AVG_WINDOW_SIZE : Nat := 0
  MAX_THREADS : Nat := 0
  platform : Option String := none
  platfrom : Option String := none
  deriving Repr, DecidableEq

/-- Observable actions of a run, in program order. -/
inductive Event where
  | mkdir (path : String)
  | assembliesBuilt
  | polishing
  | alignerCall
  | coverage_test
  | bp_analysis
  | kmer_analysis
  | pairwise_comparison
  | discordance
  | monomer_analysis
  | warning (msg : String)
  | errorMsg (msg : String)
  deriving Repr, DecidableEq

/-- The command-line inputs of `main` (already past `click` validation,
so read files are `Option` paths and flags are booleans). -/
structure MainInput where
  assembly_fnames : List String
  labels : Option String
  nano_reads_fname : Option String
  pacbio_reads_fname : Option String
  hifi_reads_fname : Option String
  out_dir : String
  threads : Nat
  monomers_fname : Option String
  no_reuse : Bool
  only_polish : Bool
  no_nucl_alignment : Bool

/-- The environment a run observes: results of the `scripts.utils` helpers
(`check_fasta_files`, `get_fasta_len`, whose code lives outside
`tandemquast.py`), of the OS calls (`os.path.isdir`, `os.path.exists`,
`sys.platform`), and the exit status of the `subprocess.call` of
`tandemmapper.py`. -/
structure Env where
  check_fasta_files : List String → Bool
  get_fasta_len : String → Nat
  isdir : String → Bool
  file_exists : String → Bool
  aligner_return_code : Int
  sys_platform : String

/-- Outcome of a run: the trace of actions, the process exit code
(`sys.exit` argument, or 0 when `main` returns normally), and the final
`config` fields. -/
structure RunResult where
  events : List Event
  exitCode : Nat
  config : Config
  deriving Repr, DecidableEq

/-- `max([get_fasta_len(f) for f in fnames])` (0 on the empty list;
`main` guarantees the list is non-empty before calling `set_params`). -/
def maxAssemblyLen (env : Env) (fnames : List String) : Nat :=
  (fnames.map env.get_fasta_len).foldl Nat.max 0

/-- `set_params(fnames, threads)` from `tandemquast.py` lines 17-30:
exits with status 1 when `check_fasta_files` fails, otherwise writes the
four adaptive parameters into `config`. -/
def set_params (env : Env) (fnames : List String) (threads : Nat)
    (cfg : Config) : Except Nat Config :=
  if !(env.check_fasta_files fnames) then Except.error 1
  else
    let assembly_len := maxAssemblyLen env fnames
    let kmer_window_size := Nat.max 500 (assembly_len / 150)
    let bp_window_size :=
      if assembly_len < 100000 then 200
      else if assembly_len < 1000000 then 500
      else 1000
    let moving_avg_window_size :=
      Nat.min 20 (Nat.max 20 (assembly_len / bp_window_size / 20))
    Except.ok { cfg with
      KMER_WINDOW_SIZE := kmer_window_size
      BP_WINDOW_SIZE := bp_window_size
      MOVING_AVG_WINDOW_SIZE := moving_avg_window_size
      MAX_THREADS := threads }

/-- `join(out_dir, "report")`. -/
def report_dir (out_dir : String) : String := out_dir ++ "/report"

/-- `join(out_dir, "tmp")`. -/
def tmp_dir (out_dir : String) : String := out_dir ++ "/tmp"

/-- Lines 68-74: `os.makedirs` is called for each of the report and tmp
directories exactly when `os.path.isdir` is false for it. -/
def mkdirEvents (env : Env) (out_dir : String) : List Event :=
  (if env.isdir (report_dir out_dir) then [] else [Event.mkdir (report_dir out_dir)]) ++
  (if env.isdir (tmp_dir out_dir) then [] else [Event.mkdir (tmp_dir out_dir)])

/-- Lines 77-82: when a non-empty label string is given, it is stripped of
quote characters and split on commas; the run fails iff the piece count
differs from the number of assemblies. -/
def labelMismatch (inp : MainInput) : Bool :=
  match inp.labels with
  | none => false
  | some s =>
    !s.data.isEmpty &&
    (splitOnComma (removeQuotes s.data)).length != inp.assembly_fnames.length

def readsErrMsg : String :=
  "ERROR! You should specify ONE path to a file with reads (ONT or Pacbio CLR reads)"

def noAssemblyErrMsg : String :=
  "ERROR! You should specify at least one assembly file."

def labelErrMsg : String :=
  "ERROR! Number of labels must correspond to the number of analyzed assemblies"

def mapperErrMsg : String :=
  "ERROR: tandemMapper failed! Please check input files and tandemMapper output. TandemQUAST cannot proceed without alignments"

def monomerPlatformMsg : String :=
  "ERROR: StringDecomposer can be run on Linux only. Monomer-based metrics will not be calculated"

/-- Lines 95-141 of `tandemquast.py`: the mapping call and the analysis
stages, entered when `--only-polish` is not set.  `ev` is the trace so
far and `cfg` the configuration fixed by `set_params`. -/
def mapping_and_analysis (inp : MainInput) (env : Env) (cfg : Config)
    (ev : List Event) : RunResult :=
  let ev := ev ++ [Event.alignerCall]
  if env.aligner_return_code != 0 then
    { events := ev ++ [Event.errorMsg mapperErrMsg], exitCode := 2, config := cfg }
  else
    let ev := ev ++ [Event.coverage_test, Event.bp_analysis]
    let ev := if !inp.no_nucl_alignment then ev ++ [Event.kmer_analysis] else ev
    let ev := ev ++ [Event.pairwise_comparison, Event.discordance]
    let platformFail :=
      inp.monomers_fname.isSome && !(strContains env.sys_platform "linux")
    let ev := if platformFail then ev ++ [Event.warning monomerPlatformMsg] else ev
    let monomers_fname := if platformFail then none else inp.monomers_fname
    match monomers_fname with
    | none => { events := ev, exitCode := 0, config := cfg }
    | some m =>
      if !(env.file_exists m) then
        { events := ev, exitCode := 0, config := cfg }
      else
        { events := ev ++ [Event.monomer_analysis], exitCode := 0, config := cfg }

/-- `main` from `tandemquast.py` lines 46-141: read-source validation,
`config.platform` / `config.platfrom` assignment, assembly-count check,
`set_params`, directory creation, label check, assembly construction,
then either the polishing-only branch or `mapping_and_analysis`. -/
def main (inp : MainInput) (env : Env) : RunResult :=
  if (inp.nano_reads_fname.isSome && inp.pacbio_reads_fname.isSome) ||
     (!inp.nano_reads_fname.isSome && !inp.pacbio_reads_fname.isSome) then
    { events := [Event.errorMsg readsErrMsg], exitCode := 2, config := {} }
  else
    let cfg : Config :=
      if inp.nano_reads_fname.isSome then { platform := some "nano" }
      else { platfrom := some "pacbio" }
    if inp.assembly_fnames.isEmpty then
      { events := [Event.errorMsg noAssemblyErrMsg], exitCode := 2, config := cfg }
    else
      match set_params env inp.assembly_fnames inp.threads cfg with
      | Except.error code => { events := [], exitCode := code, config := cfg }
      | Except.ok cfg =>
        let ev := mkdirEvents env inp.out_dir
        if labelMismatch inp then
          { events := ev ++ [Event.errorMsg labelErrMsg], exitCode := 2, config := cfg }
        else
          let ev := ev ++ [Event.assembliesBuilt]
          if inp.only_polish then
            { events := ev ++ [Event.polishing], exitCode := 0, config := cfg }
          else
            mapping_and_analysis inp env cfg ev

/-- Exactly one of the two read files was supplied. -/
def validReadSource (inp : MainInput) : Bool :=
  inp.nano_reads_fname.isSome != inp.pacbio_reads_fname.isSome

/-- The breakpoint-window tier of `set_params` as a function of the
maximum assembly length (lines 23-28). -/
def bpWindowSizeOf (L : Nat) : Nat :=
  if L < 100000 then 200
  else if L < 1000000 then 500
  else 1000

/-- `b` occurs immediately after `a` somewhere in the list. -/
def adjacentIn (a b : Event) : List Event → Bool
  | [] => false
  | [_] => false
  | x :: y :: rest => (x = a && y = b) || adjacentIn a b (y :: rest)

/-! ## Helper lemmas -/

theorem adjacentIn_append (a b : Event) (l1 l2 : List Event) :
    adjacentIn a b (l1 ++ a :: b :: l2) = true := by
  induction l1 with
  | nil => simp [adjacentIn]
  | cons x xs ih =>
    cases xs with
    | nil => simp_all [adjacentIn]
    | cons y ys => simp_all [adjacentIn]

theorem mem_mkdirEvents (e : Event) (env : Env) (o : String)
    (h : e ∈ mkdirEvents env o) :
    e = Event.mkdir (report_dir o) ∨ e = Event.mkdir (tmp_dir o) := by
  unfold mkdirEvents at h
  rcases List.mem_append.1 h with h' | h' <;>
    split at h' <;> simp_all

theorem not_mkdir_not_mem_mkdirEvents (e : Event) (env : Env) (o : String)
    (h : ∀ p, e ≠ Event.mkdir p) : e ∉ mkdirEvents env o := by
  intro hmem
  rcases mem_mkdirEvents e env o hmem with h' | h' <;> exact h _ h'

theorem set_params_ok (env : Env) (fnames : List String) (t : Nat) (cfg : Config)
    (hok : env.check_fasta_files fnames = true) :
    set_params env fnames t cfg = Except.ok { cfg with
      KMER_WINDOW_SIZE := Nat.max 500 (maxAssemblyLen env fnames / 150)
      BP_WINDOW_SIZE := bpWindowSizeOf (maxAssemblyLen env fnames)
      MOVING_AVG_WINDOW_SIZE := Nat.min 20 (Nat.max 20
        (maxAssemblyLen env fnames / bpWindowSizeOf (maxAssemblyLen env fnames) / 20))
      MAX_THREADS := t } := by
  simp [set_params, hok, bpWindowSizeOf]

/-- A valid read source falsifies the guard of the fatal read-source
check at lines 51-53. -/
theorem read_cond_false (inp : MainInput) (hread : validReadSource inp = true) :
    ((inp.nano_reads_fname.isSome && inp.pacbio_reads_fname.isSome) ||
     (!inp.nano_reads_fname.isSome && !inp.pacbio_reads_fname.isSome)) = false := by
  unfold validReadSource at hread
  cases hb1 : inp.nano_reads_fname.isSome <;>
    cases hb2 : inp.pacbio_reads_fname.isSome <;> simp_all

theorem not_mem_mkdir_append (e : Event) (env : Env) (o : String)
    (l : List Event) (h1 : ∀ p, e ≠ Event.mkdir p) (h2 : e ∉ l) :
    e ∉ mkdirEvents env o ++ l := by
  intro hmem
  rcases List.mem_append.1 hmem with h' | h'
  · exact absurd h' (not_mkdir_not_mem_mkdirEvents e env o h1)
  · exact h2 h'

/-- With a valid read source, a non-empty assembly list and well-formed
fasta files, `main` reduces to the label check, the polish branch, or the
mapping-and-analysis tail, with the directory events in front and a fixed
configuration record. -/
theorem main_reduction (inp : MainInput) (env : Env)
    (hread : validReadSource inp = true)
    (hasm : inp.assembly_fnames.isEmpty = false)
    (hok : env.check_fasta_files inp.assembly_fnames = true) :
    ∃ c : Config,
      c.MAX_THREADS = inp.threads ∧
      c.KMER_WINDOW_SIZE = Nat.max 500 (maxAssemblyLen env inp.assembly_fnames / 150) ∧
      c.BP_WINDOW_SIZE = bpWindowSizeOf (maxAssemblyLen env inp.assembly_fnames) ∧
      c.MOVING_AVG_WINDOW_SIZE = 20 ∧
      main inp env =
        (if labelMismatch inp then
          { events := mkdirEvents env inp.out_dir ++ [Event.errorMsg labelErrMsg],
            exitCode := 2, config := c }
        else if inp.only_polish then
          { events := mkdirEvents env inp.out_dir ++ [Event.assembliesBuilt, Event.polishing],
            exitCode := 0, config := c }
        else
          mapping_and_analysis inp env c
            (mkdirEvents env inp.out_dir ++ [Event.assembliesBuilt])) := by
  have hmav : ∀ x : Nat, Nat.min 20 (Nat.max 20 x) = 20 := fun x =>
    Nat.min_eq_left (Nat.le_max_left 20 x)
  have hc := read_cond_false inp hread
  refine ⟨{ (if inp.nano_reads_fname.isSome then { platform := some "nano" }
            else { platfrom := some "pacbio" } : Config) with
            KMER_WINDOW_SIZE :=
              Nat.max 500 (maxAssemblyLen env inp.assembly_fnames / 150)
            BP_WINDOW_SIZE := bpWindowSizeOf (maxAssemblyLen env inp.assembly_fnames)
            MOVING_AVG_WINDOW_SIZE := Nat.min 20 (Nat.max 20
              (maxAssemblyLen env inp.assembly_fnames /
                bpWindowSizeOf (maxAssemblyLen env inp.assembly_fnames) / 20))
            MAX_THREADS := inp.threads }, rfl, rfl, rfl, hmav _, ?_⟩
  simp [main, hc, hasm, set_params_ok env inp.assembly_fnames inp.threads _ hok]
  intro h
  rcases h with ⟨h1, h2⟩ | ⟨h1, h2⟩ <;> simp [h1, h2] at hc

theorem set_params_preserves_platform (env : Env) (fnames : List String)
    (t : Nat) (cfg c : Config)
    (h : set_params env fnames t cfg = Except.ok c) :
    c.platform = cfg.platform ∧ c.platfrom = cfg.platfrom := by
  unfold set_params at h
  split at h
  · exact absurd h (by simp)
  · simp only [Except.ok.injEq] at h
    subst h
    exact ⟨rfl, rfl⟩

theorem mapping_config (inp : MainInput) (env : Env) (cfg : Config)
    (ev : List Event) :
    (mapping_and_analysis inp env cfg ev).config = cfg := by
  simp only [mapping_and_analysis]
  repeat' first | rfl | split

theorem set_params_fail (env : Env) (fnames : List String) (t : Nat)
    (cfg : Config) (h : env.check_fasta_files fnames = false) :
    set_params env fnames t cfg = Except.error 1 := by
  simp [set_params, h]

/-- When the fasta well-formedness check fails, `main` exits with status 1
before emitting any action. -/
theorem main_invalid_fasta (inp : MainInput) (env : Env)
    (hread : validReadSource inp = true)
    (hasm : inp.assembly_fnames.isEmpty = false)
    (hbad : env.check_fasta_files inp.assembly_fnames = false) :
    (main inp env).exitCode = 1 ∧ (main inp env).events = [] := by
  have hc := read_cond_false inp hread
  simp only [main]
  rw [hc, hasm, set_params_fail env inp.assembly_fnames inp.threads _ hbad]
  simp

/-- Whatever happens after the read-source selection, the `platform` and
`platfrom` attributes keep exactly the values written at lines 55-60. -/
theorem main_platform_fields (inp : MainInput) (env : Env)
    (hread : validReadSource inp = true) :
    (main inp env).config.platform =
      (if inp.nano_reads_fname.isSome then some "nano" else none) ∧
    (main inp env).config.platfrom =
      (if inp.nano_reads_fname.isSome then none else some "pacbio") := by
  have hc := read_cond_false inp hread
  unfold main
  rw [hc]
  cases hb : inp.nano_reads_fname.isSome <;>
    simp only [hb, Bool.false_eq_true, if_false, if_true] <;>
  · split
    · exact ⟨rfl, rfl⟩
    · split
      · exact ⟨rfl, rfl⟩
      · rename_i c2 heq
        obtain ⟨h1, h2⟩ := set_params_preserves_platform env _ inp.threads _ c2 heq
        split
        · exact ⟨h1, h2⟩
        · split
          · exact ⟨h1, h2⟩
          · rw [mapping_config]
            exact ⟨h1, h2⟩

/-- When the aligner subordinate process fails, `mapping_and_analysis`
reports the failure and exits 2 right after the aligner call. -/
theorem mapping_aligner_failure (inp : MainInput) (env : Env) (cfg : Config)
    (ev : List Event) (h : env.aligner_return_code ≠ 0) :
    mapping_and_analysis inp env cfg ev =
      { events := ev ++ [Event.alignerCall, Event.errorMsg mapperErrMsg],
        exitCode := 2, config := cfg } := by
  have hb : (env.aligner_return_code != 0) = true := by simp [h]
  simp [mapping_and_analysis, hb]

/-- When the aligner succeeds, the analysis trace is the aligner call,
coverage, breakpoints, the optional k-mer stage, pairwise comparison and
discordance, followed by a tail that contains only the platform warning
and/or the monomer stage; the exit code is 0. -/
theorem mapping_events_aligned (inp : MainInput) (env : Env) (cfg : Config)
    (ev : List Event) (h0 : env.aligner_return_code = 0) :
    ∃ tail : List Event,
      (mapping_and_analysis inp env cfg ev).events =
        ev ++ Event.alignerCall :: Event.coverage_test :: Event.bp_analysis ::
          ((if !inp.no_nucl_alignment then [Event.kmer_analysis] else []) ++
            Event.pairwise_comparison :: Event.discordance :: tail) ∧
      (∀ e ∈ tail, e = Event.warning monomerPlatformMsg ∨
        e = Event.monomer_analysis) ∧
      (mapping_and_analysis inp env cfg ev).exitCode = 0 := by
  have hb : (env.aligner_return_code != 0) = false := by simp [h0]
  by_cases hpf : (inp.monomers_fname.isSome &&
      !(strContains env.sys_platform "linux")) = true
  · refine ⟨[Event.warning monomerPlatformMsg], ?_, ?_, ?_⟩
    · simp [mapping_and_analysis, hb, hpf]
      split <;> simp
    · intro e he
      simp at he
      exact Or.inl he
    · simp [mapping_and_analysis, hb, hpf]
  · have hpf' : (inp.monomers_fname.isSome &&
        !(strContains env.sys_platform "linux")) = false :=
      Bool.eq_false_iff.2 hpf
    cases hmono : inp.monomers_fname with
    | none =>
      refine ⟨[], ?_, ?_, ?_⟩
      · simp [mapping_and_analysis, hb, hpf', hmono]
        split <;> simp
      · intro e he
        simp at he
      · simp [mapping_and_analysis, hb, hpf', hmono]
    | some m =>
      have hlin : strContains env.sys_platform "linux" = true := by
        rw [hmono] at hpf'
        simpa using hpf'
      by_cases hex : env.file_exists m = true
      · refine ⟨[Event.monomer_analysis], ?_, ?_, ?_⟩
        · simp [mapping_and_analysis, hb, hmono, hlin, hex]
          split <;> simp
        · intro e he
          simp at he
          exact Or.inr he
        · simp [mapping_and_analysis, hb, hmono, hlin, hex]
      · have hex' : env.file_exists m = false := Bool.eq_false_iff.2 hex
        refine ⟨[], ?_, ?_, ?_⟩
        · simp [mapping_and_analysis, hb, hmono, hlin, hex']
          split <;> simp
        · intro e he
          simp at he
        · simp [mapping_and_analysis, hb, hmono, hlin, hex']

/-- Exact traces of `mapping_and_analysis` in the four monomer-gating
situations, when the aligner succeeds. -/
theorem mapping_monomer_cases (inp : MainInput) (env : Env) (cfg : Config)
    (ev : List Event) (h0 : env.aligner_return_code = 0) :
    (mapping_and_analysis inp env cfg ev).exitCode = 0 ∧
    (inp.monomers_fname = none →
      (mapping_and_analysis inp env cfg ev).events =
        ev ++ Event.alignerCall :: Event.coverage_test :: Event.bp_analysis ::
          ((if !inp.no_nucl_alignment then [Event.kmer_analysis] else []) ++
            [Event.pairwise_comparison, Event.discordance])) ∧
    (∀ m, inp.monomers_fname = some m →
      strContains env.sys_platform "linux" = false →
      (mapping_and_analysis inp env cfg ev).events =
        ev ++ Event.alignerCall :: Event.coverage_test :: Event.bp_analysis ::
          ((if !inp.no_nucl_alignment then [Event.kmer_analysis] else []) ++
            [Event.pairwise_comparison, Event.discordance,
             Event.warning monomerPlatformMsg])) ∧
    (∀ m, inp.monomers_fname = some m →
      strContains env.sys_platform "linux" = true →
      env.file_exists m = false →
      (mapping_and_analysis inp env cfg ev).events =
        ev ++ Event.alignerCall :: Event.coverage_test :: Event.bp_analysis ::
          ((if !inp.no_nucl_alignment then [Event.kmer_analysis] else []) ++
            [Event.pairwise_comparison, Event.discordance])) ∧
    (∀ m, inp.monomers_fname = some m →
      strContains env.sys_platform "linux" = true →
      env.file_exists m = true →
      (mapping_and_analysis inp env cfg ev).events =
        ev ++ Event.alignerCall :: Event.coverage_test :: Event.bp_analysis ::
          ((if !inp.no_nucl_alignment then [Event.kmer_analysis] else []) ++
            [Event.pairwise_comparison, Event.discordance,
             Event.monomer_analysis])) := by
  have hb : (env.aligner_return_code != 0) = false := by simp [h0]
  refine ⟨?_, ?_, ?_, ?_, ?_⟩
  · obtain ⟨tail, -, -, hexit⟩ := mapping_events_aligned inp env cfg ev h0
    exact hexit
  · intro hmono
    simp [mapping_and_analysis, hb, hmono]
    split <;> simp
  · intro m hmono hlin
    simp [mapping_and_analysis, hb, hmono, hlin]
    split <;> simp
  · intro m hmono hlin hex
    simp [mapping_and_analysis, hb, hmono, hlin, hex]
    split <;> simp
  · intro m hmono hlin hex
    simp [mapping_and_analysis, hb, hmono, hlin, hex]
    split <;> simp

/-! ## Concrete fixtures used by the witnesses -/

/-- A concrete environment: well-formed fasta files of length 1000,
no pre-existing directories, no files on disk, aligner succeeds, Linux. -/
def envW : Env :=
  { check_fasta_files := fun _ => true
    get_fasta_len := fun _ => 1000
    isdir := fun _ => false
    file_exists := fun _ => false
    aligner_return_code := 0
    sys_platform := "linux"
  }

/-- A concrete well-formed invocation: two assemblies, two labels,
nanopore reads, no monomer file, no flags. -/
def inpW : MainInput :=
  { assembly_fnames := ["asm1.fasta", "asm2.fasta"]
    labels := some "lbl1,lbl2"
    nano_reads_fname := some "reads.fastq"
    pacbio_reads_fname := none
    hifi_reads_fname := none
    out_dir := "outdir"
    threads := 8
    monomers_fname := none
    no_reuse := false
    only_polish := false
    no_nucl_alignment := false
  }

/-- `inpW` with the PacBio CLR source selected instead of nanopore. -/
def inpPB : MainInput :=
  { inpW with nano_reads_fname := none, pacbio_reads_fname := some "pacbio.fastq" }

/-- `inpW` with a single assembly (so its two labels mismatch). -/
def inpOne : MainInput :=
  { inpW with assembly_fnames := ["asm1.fasta"] }

/-- `inpW` in polish-only mode. -/
def inpPolish : MainInput :=
  { inpW with only_polish := true }

/-- `inpW` with no read file at all. -/
def inpNoReads : MainInput :=
  { inpW with nano_reads_fname := none }

/-- `envW` with a failing fasta well-formedness check. -/
def envBad : Env :=
  { envW with check_fasta_files := fun _ => false }

/-- `envW` with a failing aligner subordinate process. -/
def envAlignFail : Env :=
  { envW with aligner_return_code := 1 }

/-- `inpW` with nucleotide alignment disabled. -/
def inpNN : MainInput :=
  { inpW with no_nucl_alignment := true }

/-- `inpW` with a monomer reference file supplied. -/
def inpMono : MainInput :=
  { inpW with monomers_fname := some "mono.fa" }

/-- `envW` where every file exists on disk. -/
def envExists : Env :=
  { envW with file_exists := fun _ => true }

/-- `envW` on a non-Linux platform. -/
def envMac : Env :=
  { envW with sys_platform := "darwin" }

theorem stage_not_in_tail (e : Event) (tail : List Event)
    (htail : ∀ x ∈ tail, x = Event.warning monomerPlatformMsg ∨
      x = Event.monomer_analysis)
    (h1 : e ≠ Event.warning monomerPlatformMsg)
    (h2 : e ≠ Event.monomer_analysis) : e ∉ tail := by
  intro h
  rcases htail e h with h' | h'
  · exact h1 h'
  · exact h2 h'

/-! ## Claims -/

/-- C1: for valid non-empty assemblies with positive maximum length,
`set_params` assigns `MOVING_AVG_WINDOW_SIZE =
min(20, max(20, maxAssemblyLength // bpWindowSize // 20))`, and this value
is exactly 20 for all such inputs. -/
theorem moving_avg_window_always_20 (env : Env) (fnames : List String)
    (t : Nat) (cfg c : Config)
    (hok : env.check_fasta_files fnames = true)
    (_hpos : 0 < maxAssemblyLen env fnames)
    (hset : set_params env fnames t cfg = Except.ok c) :
    c.MOVING_AVG_WINDOW_SIZE =
      Nat.min 20 (Nat.max 20
        (maxAssemblyLen env fnames / c.BP_WINDOW_SIZE / 20)) ∧
    c.MOVING_AVG_WINDOW_SIZE = 20 := by
  rw [set_params_ok env fnames t cfg hok] at hset
  simp only [Except.ok.injEq] at hset
  subst hset
  exact ⟨rfl, Nat.min_eq_left (Nat.le_max_left _ _)⟩

/-- Witness for C1 at a concrete environment and file list. -/
theorem moving_avg_window_always_20_witness :
    envW.check_fasta_files ["asm1.fasta"] = true ∧
    0 < maxAssemblyLen envW ["asm1.fasta"] ∧
    ({ KMER_WINDOW_SIZE := 500, BP_WINDOW_SIZE := 200,
       MOVING_AVG_WINDOW_SIZE := 20, MAX_THREADS := 8,
       platform := none, platfrom := none } : Config).MOVING_AVG_WINDOW_SIZE
      = 20 :=
  ⟨rfl, by decide,
    (moving_avg_window_always_20 envW ["asm1.fasta"] 8 {}
      { KMER_WINDOW_SIZE := 500, BP_WINDOW_SIZE := 200,
        MOVING_AVG_WINDOW_SIZE := 20, MAX_THREADS := 8,
        platform := none, platfrom := none }
      rfl (by decide) rfl).2⟩

/-- C9: `set_params` assigns `KMER_WINDOW_SIZE = max(500, L // 150)`,
the tiered `BP_WINDOW_SIZE` (200 for L < 100000, 500 for L < 1000000,
1000 otherwise, hence always one of 200/500/1000 and monotone
non-decreasing in L), and stores the thread count verbatim. -/
theorem adaptive_window_sizes (env : Env) (fnames : List String)
    (t : Nat) (cfg c : Config)
    (hok : env.check_fasta_files fnames = true)
    (hset : set_params env fnames t cfg = Except.ok c)
    (L1 L2 : Nat) (hL : L1 ≤ L2) :
    c.KMER_WINDOW_SIZE = Nat.max 500 (maxAssemblyLen env fnames / 150) ∧
    c.BP_WINDOW_SIZE =
      (if maxAssemblyLen env fnames < 100000 then 200
       else if maxAssemblyLen env fnames < 1000000 then 500
       else 1000) ∧
    (c.BP_WINDOW_SIZE = 200 ∨ c.BP_WINDOW_SIZE = 500 ∨
      c.BP_WINDOW_SIZE = 1000) ∧
    c.MAX_THREADS = t ∧
    bpWindowSizeOf L1 ≤ bpWindowSizeOf L2 := by
  rw [set_params_ok env fnames t cfg hok] at hset
  simp only [Except.ok.injEq] at hset
  subst hset
  refine ⟨rfl, rfl, ?_, rfl, ?_⟩
  · unfold bpWindowSizeOf
    split_ifs <;> simp
  · unfold bpWindowSizeOf
    split_ifs <;> omega

/-- Witness for C9 at a concrete environment and file list. -/
theorem adaptive_window_sizes_witness :
    envW.check_fasta_files ["asm1.fasta"] = true ∧
    (3 : Nat) ≤ 200000 ∧
    ({ KMER_WINDOW_SIZE := 500, BP_WINDOW_SIZE := 200,
       MOVING_AVG_WINDOW_SIZE := 20, MAX_THREADS := 8,
       platform := none, platfrom := none } : Config).MAX_THREADS = 8 ∧
    bpWindowSizeOf 3 ≤ bpWindowSizeOf 200000 :=
  ⟨rfl, by decide,
    (adaptive_window_sizes envW ["asm1.fasta"] 8 {}
      { KMER_WINDOW_SIZE := 500, BP_WINDOW_SIZE := 200,
        MOVING_AVG_WINDOW_SIZE := 20, MAX_THREADS := 8,
        platform := none, platfrom := none }
      rfl rfl 3 200000 (by decide)).2.2.2.1,
    (adaptive_window_sizes envW ["asm1.fasta"] 8 {}
      { KMER_WINDOW_SIZE := 500, BP_WINDOW_SIZE := 200,
        MOVING_AVG_WINDOW_SIZE := 20, MAX_THREADS := 8,
        platform := none, platfrom := none }
      rfl rfl 3 200000 (by decide)).2.2.2.2⟩

/-- C6: supplying both read files, or neither, makes the run exit with
code 2 having emitted only the error report: no directory creation, no
assembly construction, and no stage runs. -/
theorem read_source_conflict_fails_fast (inp : MainInput) (env : Env)
    (h : (inp.nano_reads_fname.isSome = true ∧
          inp.pacbio_reads_fname.isSome = true) ∨
         (inp.nano_reads_fname = none ∧ inp.pacbio_reads_fname = none)) :
    (main inp env).exitCode = 2 ∧
    (main inp env).events = [Event.errorMsg readsErrMsg] ∧
    (∀ p, Event.mkdir p ∉ (main inp env).events) ∧
    Event.assembliesBuilt ∉ (main inp env).events ∧
    Event.alignerCall ∉ (main inp env).events ∧
    Event.coverage_test ∉ (main inp env).events ∧
    Event.polishing ∉ (main inp env).events := by
  have hmain : main inp env =
      { events := [Event.errorMsg readsErrMsg], exitCode := 2, config := {} } := by
    unfold main
    rcases h with ⟨h1, h2⟩ | ⟨h1, h2⟩ <;> simp [h1, h2]
  rw [hmain]
  refine ⟨rfl, rfl, ?_, ?_, ?_, ?_, ?_⟩ <;> simp

/-- Witness for C6: neither read file supplied. -/
theorem read_source_conflict_fails_fast_witness :
    (main inpNoReads envW).exitCode = 2 ∧
    (main inpNoReads envW).events =
      [Event.errorMsg readsErrMsg] :=
  ⟨(read_source_conflict_fails_fast inpNoReads envW
      (Or.inr ⟨rfl, rfl⟩)).1,
   (read_source_conflict_fails_fast inpNoReads envW
      (Or.inr ⟨rfl, rfl⟩)).2.1⟩

/-- C2 counterexample: with one assembly and the two-label string
"lbl1,lbl2", the run does report the mismatch and exit with status 2, yet
the report and tmp directories HAVE been created before the label check
(the code creates them at lines 68-74, before the check at lines 77-82),
contradicting the claim that no directories or artifacts are created. -/
theorem label_mismatch_claim_counterexample :
    (main inpOne envW).exitCode = 2 ∧
    Event.mkdir (report_dir "outdir") ∈
      (main inpOne envW).events ∧
    Event.mkdir (tmp_dir "outdir") ∈
      (main inpOne envW).events := by
  decide

/-- C2 amended: a label/assembly count mismatch is reported and the run
exits with status 2 before assemblies are constructed and before any
stage (polishing, alignment, analysis) runs — but after the report and
tmp directories have been created. -/
theorem label_mismatch_exits_2_after_dirs (inp : MainInput) (env : Env)
    (hread : validReadSource inp = true)
    (hasm : inp.assembly_fnames.isEmpty = false)
    (hok : env.check_fasta_files inp.assembly_fnames = true)
    (hmis : labelMismatch inp = true) :
    (main inp env).exitCode = 2 ∧
    (main inp env).events =
      mkdirEvents env inp.out_dir ++ [Event.errorMsg labelErrMsg] ∧
    Event.assembliesBuilt ∉ (main inp env).events ∧
    Event.polishing ∉ (main inp env).events ∧
    Event.alignerCall ∉ (main inp env).events ∧
    Event.coverage_test ∉ (main inp env).events ∧
    Event.monomer_analysis ∉ (main inp env).events ∧
    (env.isdir (report_dir inp.out_dir) = false →
      Event.mkdir (report_dir inp.out_dir) ∈ (main inp env).events) := by
  obtain ⟨c, -, -, -, -, hmain⟩ := main_reduction inp env hread hasm hok
  rw [hmain, if_pos hmis]
  refine ⟨rfl, rfl, ?_, ?_, ?_, ?_, ?_, ?_⟩
  · intro hmem
    rcases List.mem_append.1 hmem with h' | h'
    · rcases mem_mkdirEvents _ env _ h' with h'' | h'' <;> exact Event.noConfusion h''
    · simp at h'
  · intro hmem
    rcases List.mem_append.1 hmem with h' | h'
    · rcases mem_mkdirEvents _ env _ h' with h'' | h'' <;> exact Event.noConfusion h''
    · simp at h'
  · intro hmem
    rcases List.mem_append.1 hmem with h' | h'
    · rcases mem_mkdirEvents _ env _ h' with h'' | h'' <;> exact Event.noConfusion h''
    · simp at h'
  · intro hmem
    rcases List.mem_append.1 hmem with h' | h'
    · rcases mem_mkdirEvents _ env _ h' with h'' | h'' <;> exact Event.noConfusion h''
    · simp at h'
  · intro hmem
    rcases List.mem_append.1 hmem with h' | h'
    · rcases mem_mkdirEvents _ env _ h' with h'' | h'' <;> exact Event.noConfusion h''
    · simp at h'
  · intro hdir
    apply List.mem_append.2
    left
    unfold mkdirEvents
    rw [hdir]
    simp

/-- Witness for the amended C2 at a concrete input. -/
theorem label_mismatch_exits_2_after_dirs_witness :
    validReadSource inpOne = true ∧
    labelMismatch inpOne = true ∧
    (main inpOne envW).exitCode = 2 ∧
    Event.assembliesBuilt ∉
      (main inpOne envW).events :=
  ⟨by decide, by decide,
   (label_mismatch_exits_2_after_dirs
      inpOne envW
      (by decide) (by decide) rfl (by decide)).1,
   (label_mismatch_exits_2_after_dirs
      inpOne envW
      (by decide) (by decide) rfl (by decide)).2.2.1⟩

/-- C3: when the PacBio CLR source is selected, line 60 assigns the tag
to the misspelled attribute `platfrom`, so `platform` is never set to
"pacbio" (it keeps its unassigned value `none`); when the nanopore source
is selected, `platform` is set to "nano". -/
theorem pacbio_platform_typo (inp : MainInput) (env : Env) :
    (∀ f, inp.nano_reads_fname = none → inp.pacbio_reads_fname = some f →
      (main inp env).config.platfrom = some "pacbio" ∧
      (main inp env).config.platform = none ∧
      (main inp env).config.platform ≠ some "pacbio") ∧
    (∀ f, inp.nano_reads_fname = some f → inp.pacbio_reads_fname = none →
      (main inp env).config.platform = some "nano" ∧
      (main inp env).config.platfrom = none) := by
  constructor
  · intro f hn hp
    have hread : validReadSource inp = true := by
      simp [validReadSource, hn, hp]
    obtain ⟨h1, h2⟩ := main_platform_fields inp env hread
    rw [hn] at h1 h2
    simp only [Option.isSome_none, Bool.false_eq_true, if_false] at h1 h2
    exact ⟨h2, h1, by rw [h1]; exact fun h => Option.noConfusion h⟩
  · intro f hn hp
    have hread : validReadSource inp = true := by
      simp [validReadSource, hn, hp]
    obtain ⟨h1, h2⟩ := main_platform_fields inp env hread
    rw [hn] at h1 h2
    simp only [Option.isSome_some, if_true] at h1 h2
    exact ⟨h1, h2⟩

/-- Witness for C3 at concrete PacBio and nanopore invocations. -/
theorem pacbio_platform_typo_witness :
    (main inpPB envW).config.platfrom = some "pacbio" ∧
    (main inpPB envW).config.platform = none ∧
    (main inpW envW).config.platform = some "nano" :=
  ⟨((pacbio_platform_typo inpPB envW).1 "pacbio.fastq" rfl rfl).1,
   ((pacbio_platform_typo inpPB envW).1 "pacbio.fastq" rfl rfl).2.1,
   ((pacbio_platform_typo inpW envW).2 "reads.fastq" rfl rfl).1⟩

/-- C4: in polish-only mode with valid inputs the aligner is never
invoked, no analysis stage runs, the polishing stage runs, and the
process exits with code 0. -/
theorem polish_only_skips_alignment_and_analysis (inp : MainInput)
    (env : Env)
    (hread : validReadSource inp = true)
    (hasm : inp.assembly_fnames.isEmpty = false)
    (hok : env.check_fasta_files inp.assembly_fnames = true)
    (hlab : labelMismatch inp = false)
    (hpol : inp.only_polish = true) :
    (main inp env).exitCode = 0 ∧
    Event.polishing ∈ (main inp env).events ∧
    Event.alignerCall ∉ (main inp env).events ∧
    Event.coverage_test ∉ (main inp env).events ∧
    Event.bp_analysis ∉ (main inp env).events ∧
    Event.kmer_analysis ∉ (main inp env).events ∧
    Event.pairwise_comparison ∉ (main inp env).events ∧
    Event.discordance ∉ (main inp env).events ∧
    Event.monomer_analysis ∉ (main inp env).events := by
  obtain ⟨c, -, -, -, -, hmain⟩ := main_reduction inp env hread hasm hok
  rw [hmain, if_neg (by simp [hlab]), if_pos hpol]
  refine ⟨rfl, by simp, ?_, ?_, ?_, ?_, ?_, ?_, ?_⟩ <;>
    exact not_mem_mkdir_append _ env _ _ (by simp) (by simp)

/-- Witness for C4 at a concrete polish-only invocation. -/
theorem polish_only_skips_alignment_and_analysis_witness :
    (main inpPolish envW).exitCode = 0 ∧
    Event.polishing ∈ (main inpPolish envW).events ∧
    Event.alignerCall ∉ (main inpPolish envW).events :=
  ⟨(polish_only_skips_alignment_and_analysis inpPolish
      envW (by decide) (by decide) rfl (by decide) rfl).1,
   (polish_only_skips_alignment_and_analysis inpPolish
      envW (by decide) (by decide) rfl (by decide) rfl).2.1,
   (polish_only_skips_alignment_and_analysis inpPolish
      envW (by decide) (by decide) rfl (by decide) rfl).2.2.1⟩

/-- C10: polish-only mode does not bypass input validation, parameter
adaptation or directory creation: a failing fasta check still exits with
status 1 before polishing, and on valid inputs the adaptive parameters
are computed, both directories are created when absent, polishing runs,
and the run exits with code 0. -/
theorem polish_only_keeps_validation_params_dirs (inp : MainInput)
    (env : Env)
    (hread : validReadSource inp = true)
    (hasm : inp.assembly_fnames.isEmpty = false)
    (hlab : labelMismatch inp = false)
    (hpol : inp.only_polish = true) :
    (env.check_fasta_files inp.assembly_fnames = false →
      (main inp env).exitCode = 1 ∧
      Event.polishing ∉ (main inp env).events) ∧
    (env.check_fasta_files inp.assembly_fnames = true →
      (main inp env).config.KMER_WINDOW_SIZE =
        Nat.max 500 (maxAssemblyLen env inp.assembly_fnames / 150) ∧
      (main inp env).config.BP_WINDOW_SIZE =
        bpWindowSizeOf (maxAssemblyLen env inp.assembly_fnames) ∧
      (main inp env).config.MAX_THREADS = inp.threads ∧
      (env.isdir (report_dir inp.out_dir) = false →
        Event.mkdir (report_dir inp.out_dir) ∈ (main inp env).events) ∧
      (env.isdir (tmp_dir inp.out_dir) = false →
        Event.mkdir (tmp_dir inp.out_dir) ∈ (main inp env).events) ∧
      Event.polishing ∈ (main inp env).events ∧
      (main inp env).exitCode = 0) := by
  constructor
  · intro hbad
    obtain ⟨h1, h2⟩ := main_invalid_fasta inp env hread hasm hbad
    exact ⟨h1, by rw [h2]; simp⟩
  · intro hok
    obtain ⟨c, hthreads, hk, hbp, -, hmain⟩ := main_reduction inp env hread hasm hok
    rw [hmain, if_neg (by simp [hlab]), if_pos hpol]
    refine ⟨hk, hbp, hthreads, ?_, ?_, by simp, rfl⟩
    · intro hdir
      apply List.mem_append.2
      left
      unfold mkdirEvents
      rw [hdir]
      simp
    · intro hdir
      apply List.mem_append.2
      left
      unfold mkdirEvents
      rw [hdir]
      simp

/-- Witness for C10: a failing-fasta run and a valid polish-only run. -/
theorem polish_only_keeps_validation_params_dirs_witness :
    ((main inpPolish
        envBad).exitCode = 1) ∧
    ((main inpPolish envW).config.MAX_THREADS = 8) ∧
    Event.mkdir (report_dir "outdir") ∈
      (main inpPolish envW).events :=
  ⟨((polish_only_keeps_validation_params_dirs inpPolish
      envBad
      (by decide) (by decide) (by decide) rfl).1 rfl).1,
   ((polish_only_keeps_validation_params_dirs inpPolish
      envW (by decide) (by decide) (by decide) rfl).2 rfl).2.2.1,
   ((polish_only_keeps_validation_params_dirs inpPolish
      envW (by decide) (by decide) (by decide) rfl).2 rfl).2.2.2.1 rfl⟩

/-- C5: when the aligner subordinate process returns a non-zero status,
the pipeline reports the failure and exits with code 2, and none of the
analysis stages (coverage, breakpoints, k-mer, pairwise, discordance,
monomer) is invoked afterwards. -/
theorem aligner_failure_aborts_pipeline (inp : MainInput) (env : Env)
    (hread : validReadSource inp = true)
    (hasm : inp.assembly_fnames.isEmpty = false)
    (hok : env.check_fasta_files inp.assembly_fnames = true)
    (hlab : labelMismatch inp = false)
    (hpol : inp.only_polish = false)
    (halign : env.aligner_return_code ≠ 0) :
    (main inp env).exitCode = 2 ∧
    Event.alignerCall ∈ (main inp env).events ∧
    Event.errorMsg mapperErrMsg ∈ (main inp env).events ∧
    Event.coverage_test ∉ (main inp env).events ∧
    Event.bp_analysis ∉ (main inp env).events ∧
    Event.kmer_analysis ∉ (main inp env).events ∧
    Event.pairwise_comparison ∉ (main inp env).events ∧
    Event.discordance ∉ (main inp env).events ∧
    Event.monomer_analysis ∉ (main inp env).events := by
  obtain ⟨c, -, -, -, -, hmain⟩ := main_reduction inp env hread hasm hok
  rw [hmain, if_neg (by simp [hlab]), if_neg (by simp [hpol]),
    mapping_aligner_failure inp env c _ halign]
  refine ⟨rfl, by simp, by simp, ?_, ?_, ?_, ?_, ?_, ?_⟩ <;>
  · rw [List.append_assoc]
    exact not_mem_mkdir_append _ env _ _ (by simp) (by simp)

/-- Witness for C5 at a concrete run whose aligner exits with status 1. -/
theorem aligner_failure_aborts_pipeline_witness :
    (main inpW envAlignFail).exitCode = 2 ∧
    Event.alignerCall ∈ (main inpW envAlignFail).events ∧
    Event.coverage_test ∉ (main inpW envAlignFail).events :=
  ⟨(aligner_failure_aborts_pipeline inpW envAlignFail
      (by decide) (by decide) rfl (by decide) rfl (by decide)).1,
   (aligner_failure_aborts_pipeline inpW envAlignFail
      (by decide) (by decide) rfl (by decide) rfl (by decide)).2.1,
   (aligner_failure_aborts_pipeline inpW envAlignFail
      (by decide) (by decide) rfl (by decide) rfl (by decide)).2.2.2.1⟩

/-- C7: with the no-nucl-alignment flag set (and not polish-only), the
k-mer stage never runs and pairwise comparison follows breakpoints
directly; with the flag unset, the k-mer stage runs between breakpoints
and pairwise comparison. -/
theorem kmer_stage_gated_by_nucl_flag (inp : MainInput) (env : Env)
    (hread : validReadSource inp = true)
    (hasm : inp.assembly_fnames.isEmpty = false)
    (hok : env.check_fasta_files inp.assembly_fnames = true)
    (hlab : labelMismatch inp = false)
    (hpol : inp.only_polish = false)
    (halign : env.aligner_return_code = 0) :
    (inp.no_nucl_alignment = true →
      Event.kmer_analysis ∉ (main inp env).events ∧
      adjacentIn Event.bp_analysis Event.pairwise_comparison
        (main inp env).events = true) ∧
    (inp.no_nucl_alignment = false →
      adjacentIn Event.bp_analysis Event.kmer_analysis
        (main inp env).events = true ∧
      adjacentIn Event.kmer_analysis Event.pairwise_comparison
        (main inp env).events = true) := by
  obtain ⟨c, -, -, -, -, hmain⟩ := main_reduction inp env hread hasm hok
  rw [hmain, if_neg (by simp [hlab]), if_neg (by simp [hpol])]
  obtain ⟨tail, hev, htail, -⟩ :=
    mapping_events_aligned inp env c
      (mkdirEvents env inp.out_dir ++ [Event.assembliesBuilt]) halign
  constructor
  · intro hnn
    rw [hnn] at hev
    simp only [Bool.not_true, Bool.false_eq_true, if_false,
      List.nil_append] at hev
    constructor
    · rw [hev, List.append_assoc]
      refine not_mem_mkdir_append _ env _ _ (by simp) ?_
      have hk := stage_not_in_tail Event.kmer_analysis tail htail
        (by simp) (by simp)
      simp [hk]
    · have hsh : (mkdirEvents env inp.out_dir ++ [Event.assembliesBuilt]) ++
          Event.alignerCall :: Event.coverage_test :: Event.bp_analysis ::
            Event.pairwise_comparison :: Event.discordance :: tail =
          (mkdirEvents env inp.out_dir ++
            [Event.assembliesBuilt, Event.alignerCall, Event.coverage_test]) ++
            Event.bp_analysis :: Event.pairwise_comparison ::
              Event.discordance :: tail := by
        simp
      rw [hev, hsh]
      exact adjacentIn_append _ _ _ _
  · intro hnn
    rw [hnn] at hev
    simp only [Bool.not_false, if_true, List.cons_append,
      List.singleton_append, List.nil_append] at hev
    constructor
    · have hsh : (mkdirEvents env inp.out_dir ++ [Event.assembliesBuilt]) ++
          Event.alignerCall :: Event.coverage_test :: Event.bp_analysis ::
            Event.kmer_analysis :: Event.pairwise_comparison ::
              Event.discordance :: tail =
          (mkdirEvents env inp.out_dir ++
            [Event.assembliesBuilt, Event.alignerCall, Event.coverage_test]) ++
            Event.bp_analysis :: Event.kmer_analysis ::
              Event.pairwise_comparison :: Event.discordance :: tail := by
        simp
      rw [hev, hsh]
      exact adjacentIn_append _ _ _ _
    · have hsh : (mkdirEvents env inp.out_dir ++ [Event.assembliesBuilt]) ++
          Event.alignerCall :: Event.coverage_test :: Event.bp_analysis ::
            Event.kmer_analysis :: Event.pairwise_comparison ::
              Event.discordance :: tail =
          (mkdirEvents env inp.out_dir ++
            [Event.assembliesBuilt, Event.alignerCall, Event.coverage_test,
             Event.bp_analysis]) ++
            Event.kmer_analysis :: Event.pairwise_comparison ::
              Event.discordance :: tail := by
        simp
      rw [hev, hsh]
      exact adjacentIn_append _ _ _ _

/-- Witness for C7: a run with the flag set and one with it unset. -/
theorem kmer_stage_gated_by_nucl_flag_witness :
    (Event.kmer_analysis ∉ (main inpNN envW).events ∧
     adjacentIn Event.bp_analysis Event.pairwise_comparison
       (main inpNN envW).events = true) ∧
    adjacentIn Event.bp_analysis Event.kmer_analysis
      (main inpW envW).events = true :=
  ⟨(kmer_stage_gated_by_nucl_flag inpNN envW
      (by decide) (by decide) rfl (by decide) rfl rfl).1 rfl,
   ((kmer_stage_gated_by_nucl_flag inpW envW
      (by decide) (by decide) rfl (by decide) rfl rfl).2 rfl).1⟩

/-- C8: after discordance, the monomer stage is skipped (with exit code
0) when no monomer file was supplied, when the platform is not
Linux-family (with a user-visible warning), or when the file does not
exist; it runs exactly when the file was supplied, exists, and the
platform is Linux-family, and the run still exits 0. -/
theorem monomer_stage_gating (inp : MainInput) (env : Env)
    (hread : validReadSource inp = true)
    (hasm : inp.assembly_fnames.isEmpty = false)
    (hok : env.check_fasta_files inp.assembly_fnames = true)
    (hlab : labelMismatch inp = false)
    (hpol : inp.only_polish = false)
    (halign : env.aligner_return_code = 0) :
    (main inp env).exitCode = 0 ∧
    (inp.monomers_fname = none →
      Event.monomer_analysis ∉ (main inp env).events) ∧
    (∀ m, inp.monomers_fname = some m →
      strContains env.sys_platform "linux" = false →
      Event.warning monomerPlatformMsg ∈ (main inp env).events ∧
      Event.monomer_analysis ∉ (main inp env).events) ∧
    (∀ m, inp.monomers_fname = some m →
      strContains env.sys_platform "linux" = true →
      env.file_exists m = false →
      Event.monomer_analysis ∉ (main inp env).events) ∧
    (∀ m, inp.monomers_fname = some m →
      strContains env.sys_platform "linux" = true →
      env.file_exists m = true →
      Event.monomer_analysis ∈ (main inp env).events) := by
  obtain ⟨c, -, -, -, -, hmain⟩ := main_reduction inp env hread hasm hok
  rw [hmain, if_neg (by simp [hlab]), if_neg (by simp [hpol])]
  obtain ⟨hexit, h1, h2, h3, h4⟩ :=
    mapping_monomer_cases inp env c
      (mkdirEvents env inp.out_dir ++ [Event.assembliesBuilt]) halign
  refine ⟨hexit, ?_, ?_, ?_, ?_⟩
  · intro hmono
    rw [h1 hmono, List.append_assoc]
    refine not_mem_mkdir_append _ env _ _ (by simp) ?_
    split <;> simp
  · intro m hmono hlin
    constructor
    · rw [h2 m hmono hlin]
      simp
    · rw [h2 m hmono hlin, List.append_assoc]
      refine not_mem_mkdir_append _ env _ _ (by simp) ?_
      split <;> simp
  · intro m hmono hlin hex
    rw [h3 m hmono hlin hex, List.append_assoc]
    refine not_mem_mkdir_append _ env _ _ (by simp) ?_
    split <;> simp
  · intro m hmono hlin hex
    rw [h4 m hmono hlin hex]
    simp

/-- Witness for C8: monomer file on Linux with the file present, on a
non-Linux platform, and with the file absent. -/
theorem monomer_stage_gating_witness :
    Event.monomer_analysis ∈ (main inpMono envExists).events ∧
    Event.warning monomerPlatformMsg ∈ (main inpMono envMac).events ∧
    Event.monomer_analysis ∉ (main inpMono envW).events ∧
    (main inpMono envExists).exitCode = 0 :=
  ⟨(monomer_stage_gating inpMono envExists
      (by decide) (by decide) rfl (by decide) rfl rfl).2.2.2.2
      "mono.fa" rfl (by decide) rfl,
   ((monomer_stage_gating inpMono envMac
      (by decide) (by decide) rfl (by decide) rfl rfl).2.2.1
      "mono.fa" rfl (by decide)).1,
   (monomer_stage_gating inpMono envW
      (by decide) (by decide) rfl (by decide) rfl rfl).2.2.2.1
      "mono.fa" rfl (by decide) rfl,
   (monomer_stage_gating inpMono envExists
      (by decide) (by decide) rfl (by decide) rfl rfl).1⟩

end TandemQuast
